import Mathlib

/-!
Verification development for the RAG pipeline orchestration layer
(configuration resolution, collection lifecycle, query preconditions).

The definitions below are a shallow embedding of the Python sources:
`rag_pipeline/config.py`, `rag_pipeline/engine/data_loader.py`,
`rag_pipeline/db/chroma_manager.py` and `rag_pipeline/core/core.py`.
Delegated capabilities (directory scanning and text extraction, sentence
splitting, embedding, LLM completion, vector search) are modelled as
explicit environment parameters; the persistent Chroma store is modelled
as an association list from collection names to lists of stored chunks.
-/

set_option maxHeartbeats 1000000

/-- Model configuration record, one entry of `MODEL_CONFIGS` in
`rag_pipeline/config.py`.  `api_base` and `api_version` are present only
for the Azure entries, hence `Option`. -/
structure ModelConfig where
  provider : String
  llm_model : String
  embedding_model : String
  api_base : Option String
  api_version : Option String
deriving Repr, DecidableEq

/-- The fixed model-configuration registry `MODEL_CONFIGS` of
`rag_pipeline/config.py` (a process-wide static table, never mutated). -/
def MODEL_CONFIGS : List (String × ModelConfig) :=
  [ ("default",
      { provider := "openai", llm_model := "gpt-4o",
        embedding_model := "text-embedding-3-large",
        api_base := none, api_version := none }),
    ("fast",
      { provider := "openai", llm_model := "gpt-4",
        embedding_model := "text-embedding-3-small",
        api_base := none, api_version := none }),
    ("legacy",
      { provider := "openai", llm_model := "gpt-3.5-turbo",
        embedding_model := "text-embedding-3-small",
        api_base := none, api_version := none }),
    ("azure_default",
      { provider := "azure", llm_model := "gpt-4",
        embedding_model := "text-embedding-ada-002",
        api_base := some "YOUR_AZURE_OPENAI_ENDPOINT",
        api_version := some "2024-02-15-preview" }),
    ("azure_fast",
      { provider := "azure", llm_model := "gpt-35-turbo",
        embedding_model := "text-embedding-ada-002",
        api_base := some "YOUR_AZURE_OPENAI_ENDPOINT",
        api_version := some "2024-02-15-preview" }) ]

/-- The fixed file-type registry `FILE_TYPES` of `rag_pipeline/config.py`. -/
def FILE_TYPES : List (String × List String) :=
  [ ("default", [".pdf", ".docx", ".txt", ".md"]),
    ("text_only", [".txt", ".md"]),
    ("documents", [".pdf", ".docx"]) ]

/-- `CHROMA_CONFIG` of `rag_pipeline/config.py`.  The first field is
named `collection_prefix` in the source. -/
structure ChromaConfig where
  collection_pre : String
  persist_directory : String
deriving Repr, DecidableEq

/-- The concrete `CHROMA_CONFIG` table. -/
def CHROMA_CONFIG : ChromaConfig :=
  { collection_pre := "rag_collection", persist_directory := "data/chroma_db" }

/-- `QUERY_CONFIG` of `rag_pipeline/config.py`. -/
structure QueryConfig where
  default_response_mode : String
  supported_response_modes : List String
deriving Repr, DecidableEq

/-- The concrete `QUERY_CONFIG` table. -/
def QUERY_CONFIG : QueryConfig :=
  { default_response_mode := "compact",
    supported_response_modes := ["compact", "refine", "tree_summarize"] }

/-- The error taxonomy of the spec.  In the Python sources every one of
these is raised as a `ValueError` with a distinguishing message; the
constructor identifies which message/site. -/
inductive PipelineError where
  | configurationError (msg : String)
  | directoryNotFoundError (dir : String)
  | noIndexLoadedError
  | unsupportedResponseModeError (mode : String)
  | collectionNotFoundError (name : String)
deriving Repr, DecidableEq

/-- `get_model_config` of `rag_pipeline/config.py`: registry lookup,
`ValueError` (a `ConfigurationError`) on an unknown name.  The registry
is a static table; the function only reads it. -/
def get_model_config (config_name : String) : Except PipelineError ModelConfig :=
  match MODEL_CONFIGS.lookup config_name with
  | some c => .ok c
  | none => .error (.configurationError ("Unknown model configuration: " ++ config_name))

/-- `get_file_types` of `rag_pipeline/config.py`. -/
def get_file_types (config_name : String) : Except PipelineError (List String) :=
  match FILE_TYPES.lookup config_name with
  | some fts => .ok fts
  | none => .error (.configurationError ("Unknown file types configuration: " ++ config_name))

/-- One chunk persisted in a collection (the unit of embedding and
upsert; produced by the delegated sentence splitter). -/
structure StoredChunk where
  text : String
deriving Repr, DecidableEq

/-- Association-list lookup on collection tables, keyed by name. -/
def lookupColl : List (String × List StoredChunk) → String → Option (List StoredChunk)
  | [], _ => none
  | (k, v) :: rest, name => if k = name then some v else lookupColl rest name

/-- Remove every entry with the given name from a collection table. -/
def removeColl : List (String × List StoredChunk) → String → List (String × List StoredChunk)
  | [], _ => []
  | (k, v) :: rest, name =>
      if k = name then removeColl rest name else (k, v) :: removeColl rest name

/-- The persistent Chroma store: named collections with their stored
chunks.  This is the state behind `chromadb.PersistentClient`. -/
structure Store where
  collections : List (String × List StoredChunk)
deriving Repr, DecidableEq

/-- `get_or_create_collection` of the Chroma client: create an empty
collection when the name is absent, otherwise leave the store unchanged. -/
def Store.get_or_create (s : Store) (name : String) : Store :=
  match lookupColl s.collections name with
  | some _ => s
  | none => { collections := (name, []) :: s.collections }

/-- Upsert chunks into a named collection (the effect on the store of
`VectorStoreIndex.from_documents` writing through the Chroma vector
store): append to the existing items, creating the collection if absent. -/
def Store.upsert (s : Store) (name : String) (chunks : List StoredChunk) : Store :=
  { collections :=
      (name, ((lookupColl s.collections name).getD []) ++ chunks)
        :: removeColl s.collections name }

theorem lookupColl_removeColl_self (l : List (String × List StoredChunk)) (name : String) :
    lookupColl (removeColl l name) name = none := by
  induction l with
  | nil => rfl
  | cons p rest ih =>
      obtain ⟨k, v⟩ := p
      by_cases hk : k = name
      · simp [removeColl, hk, ih]
      · simp [removeColl, hk, lookupColl, ih]

theorem lookupColl_removeColl_ne (l : List (String × List StoredChunk)) (name k : String)
    (h : k ≠ name) : lookupColl (removeColl l name) k = lookupColl l k := by
  induction l with
  | nil => rfl
  | cons p rest ih =>
      obtain ⟨k0, v⟩ := p
      by_cases hk : k0 = name
      · simp [removeColl, hk, lookupColl, ih, Ne.symm h]
      · by_cases hk2 : k0 = k
        · simp [removeColl, hk, lookupColl, hk2, h]
        · simp [removeColl, hk, lookupColl, hk2, ih]

theorem lookupColl_upsert_self (s : Store) (name : String) (chunks : List StoredChunk) :
    lookupColl (s.upsert name chunks).collections name
      = some (((lookupColl s.collections name).getD []) ++ chunks) := by
  simp [Store.upsert, lookupColl]

theorem lookupColl_get_or_create_self (s : Store) (name : String) :
    (lookupColl (s.get_or_create name).collections name).isSome := by
  unfold Store.get_or_create
  cases h : lookupColl s.collections name with
  | some v => simp [h]
  | none => simp [lookupColl]

/-- One loaded document (the `Document` records returned by the
delegated `SimpleDirectoryReader.load_data`). -/
structure Doc where
  text : String
  source_path : String
deriving Repr, DecidableEq

/-- The delegated filesystem / extraction environment: which directories
exist, and what `SimpleDirectoryReader.load_data` yields for a given
input directory, required extensions, `recursive` and `exclude_hidden`
flags (enumeration + extension filter + extraction are all delegated). -/
structure FileSystem where
  dirs : List String
  scan : String → List String → Bool → Bool → List Doc

/-- `DataLoader` of `rag_pipeline/engine/data_loader.py` (constructor
defaults: `recursive=False`, `exclude_hidden=True`; the file-extractor
table is part of the delegated reader and not modelled). -/
structure DataLoader where
  data_dir : String
  file_types : List String
  recursive : Bool
  exclude_hidden : Bool
deriving Repr, DecidableEq

/-- `DataLoader.__init__`: resolves the named file-type configuration
(which can fail with a `ConfigurationError`). -/
def DataLoader.init (data_dir : String) (file_types : String) :
    Except PipelineError DataLoader :=
  match get_file_types file_types with
  | .error e => .error e
  | .ok fts =>
      .ok { data_dir := data_dir, file_types := fts,
            recursive := false, exclude_hidden := true }

/-- Result of `DataLoader.load_documents`: the documents together with
whether the empty-result warning was printed. -/
structure LoadResult where
  docs : List Doc
  warned : Bool
deriving Repr, DecidableEq

/-- `DataLoader.load_documents` of `rag_pipeline/engine/data_loader.py`:
raise `ValueError` (a `DirectoryNotFoundError`) when the data directory
does not exist; otherwise run the delegated reader, print a warning when
the result is empty, and return the documents. -/
def DataLoader.load_documents (fs : FileSystem) (dl : DataLoader)
    (file_types : Option (List String)) : Except PipelineError LoadResult :=
  if dl.data_dir ∈ fs.dirs then
    let fts := file_types.getD dl.file_types
    let docs := fs.scan dl.data_dir fts dl.recursive dl.exclude_hidden
    .ok { docs := docs, warned := docs.isEmpty }
  else
    .error (.directoryNotFoundError dl.data_dir)

/-- A vector index handle over one collection, as reconstructed by
`VectorStoreIndex.from_documents` / `from_vector_store`. -/
structure Index where
  collection_name : String
deriving Repr, DecidableEq

/-- `ChromaDBManager` of `rag_pipeline/db/chroma_manager.py`: the
per-instance fields set by its constructor (client, vector store and
embedding objects are delegated handles identified by the collection
name and the store). -/
structure ChromaDBManager where
  provider : String
  model_name : String
  embedding_model : String
  model_config : String
  collection_name : String
deriving Repr, DecidableEq

/-- `ChromaDBManager.__init__`: resolve the model configuration (can
fail with a `ConfigurationError`), resolve the collection name as
`{collection_prefix}_{model_config}` when none is supplied, and
get-or-create that collection in the persistent store. -/
def ChromaDBManager.init (collection_name : Option String) (model_config : String)
    (s : Store) : Except PipelineError (ChromaDBManager × Store) :=
  match get_model_config model_config with
  | .error e => .error e
  | .ok settings =>
      let name :=
        match collection_name with
        | none => CHROMA_CONFIG.collection_pre ++ "_" ++ model_config
        | some n => n
      let s1 := s.get_or_create name
      .ok ({ provider := settings.provider, model_name := settings.llm_model,
             embedding_model := settings.embedding_model,
             model_config := model_config, collection_name := name }, s1)

/-- Result of `ChromaDBManager.create_index`: the index handle, the
updated store, and the number of embedding-capability invocations (one
per chunk upserted). -/
structure CreateResult where
  index : Index
  store : Store
  embeds : Nat
deriving Repr, DecidableEq

/-- `ChromaDBManager.create_index`: `VectorStoreIndex.from_documents`
splits each document into chunks (delegated `split`), embeds each chunk
(one embedding call per chunk) and upserts them into this manager's
collection through the bound storage context. -/
def ChromaDBManager.create_index (split : Doc → List StoredChunk)
    (m : ChromaDBManager) (documents : List Doc) (s : Store) : CreateResult :=
  let chunks := documents.flatMap split
  { index := { collection_name := m.collection_name },
    store := s.upsert m.collection_name chunks,
    embeds := chunks.length }

/-- `ChromaDBManager.get_existing_index`: return `none` when the
collection is missing from `list_collections`, `none` when it exists with
`count() == 0`, and otherwise the index reconstructed from the vector
store. -/
def ChromaDBManager.get_existing_index (m : ChromaDBManager) (s : Store) : Option Index :=
  match lookupColl s.collections m.collection_name with
  | none => none
  | some items =>
      if items.length = 0 then none
      else some { collection_name := m.collection_name }

/-- Modelled from the spec: `ChromaDBManager.get_document_count` is
called by `RAGPipeline.load_documents` (core/core.py line 91) but its
definition is absent from the source tree.  Spec section 4.3:
`getDocumentCount(collectionName) -> integer`: 0 if the collection does
not exist. -/
def ChromaDBManager.get_document_count (m : ChromaDBManager) (s : Store) : Nat :=
  match lookupColl s.collections m.collection_name with
  | some items => items.length
  | none => 0

/-- Modelled from the spec: `ChromaDBManager.delete_collection` is
called by `RAGPipeline.delete_index` (core/core.py line 131) but its
definition is absent from the source tree.  Spec section 4.3:
`deleteCollection(collectionName)`: fails with `CollectionNotFoundError`
if absent; otherwise removes all persisted chunks and metadata. -/
def ChromaDBManager.delete_collection (m : ChromaDBManager) (s : Store) :
    Except PipelineError Store :=
  match lookupColl s.collections m.collection_name with
  | some _ => .ok { collections := removeColl s.collections m.collection_name }
  | none => .error (.collectionNotFoundError m.collection_name)

/-- `RAGPipeline` of `rag_pipeline/core/core.py`: the facade's
per-instance fields.  `collection_name` keeps the raw constructor
argument (the source stores it before the manager resolves a default);
the resolved name lives in `chroma_manager.collection_name`.  The LLM
object is a delegated handle and is not part of the state. -/
structure RAGPipeline where
  data_dir : String
  file_types : List String
  collection_name : Option String
  provider : String
  model_name : String
  data_loader : DataLoader
  chroma_manager : ChromaDBManager
  index : Option Index
deriving Repr, DecidableEq

/-- `RAGPipeline.__init__`: resolve the file-type configuration, build
the `DataLoader`, resolve the model configuration, build the
`ChromaDBManager` (which get-or-creates the collection in the store),
and start with no index loaded. -/
def RAGPipeline.init (data_dir : String) (collection_name : Option String)
    (model_config : String) (file_types : String) (s : Store) :
    Except PipelineError (RAGPipeline × Store) :=
  match get_file_types file_types with
  | .error e => .error e
  | .ok fts =>
      match DataLoader.init data_dir file_types with
      | .error e => .error e
      | .ok dl =>
          match get_model_config model_config with
          | .error e => .error e
          | .ok settings =>
              match ChromaDBManager.init collection_name model_config s with
              | .error e => .error e
              | .ok (cm, s1) =>
                  .ok ({ data_dir := data_dir, file_types := fts,
                         collection_name := collection_name,
                         provider := settings.provider,
                         model_name := settings.llm_model,
                         data_loader := dl, chroma_manager := cm,
                         index := none }, s1)

/-- Dynamic state of a facade run: the facade instance (whose `index`
field evolves), the persistent store, and a running count of
embedding-capability invocations (for the no-re-embedding assertions). -/
structure PipelineState where
  pipeline : RAGPipeline
  store : Store
  embed_calls : Nat
deriving Repr, DecidableEq

/-- `RAGPipeline.load_documents` of `rag_pipeline/core/core.py`: if the
collection already holds documents, load the existing index and return;
otherwise load documents through the `DataLoader` (which may fail with a
`DirectoryNotFoundError`) and, when the result is non-empty, build the
index (embedding every chunk). -/
def RAGPipeline.load_documents (fs : FileSystem) (split : Doc → List StoredChunk)
    (st : PipelineState) (file_types : Option (List String)) :
    Except PipelineError PipelineState :=
  let doc_count := st.pipeline.chroma_manager.get_document_count st.store
  if 0 < doc_count then
    .ok { st with pipeline :=
      { st.pipeline with
          index := st.pipeline.chroma_manager.get_existing_index st.store } }
  else
    match DataLoader.load_documents fs st.pipeline.data_loader file_types with
    | .error e => .error e
    | .ok r =>
        match r.docs with
        | [] => .ok st
        | d :: ds =>
            let c := st.pipeline.chroma_manager.create_index split (d :: ds) st.store
            .ok { pipeline := { st.pipeline with index := some c.index },
                  store := c.store,
                  embed_calls := st.embed_calls + c.embeds }

/-- The delegated query engine: what
`index.as_query_engine(response_mode=mode).query(question)` answers for
a given index, question and response mode. -/
structure QueryEnv where
  answer : Index → String → String → String

/-- Result of a `query` call: the outcome, plus how many retrieval and
generation invocations the call performed (for the
no-retrieval-on-error assertions). -/
structure QueryOutcome where
  result : Except PipelineError String
  retrieval_calls : Nat
  generation_calls : Nat

/-- `RAGPipeline.query` of `rag_pipeline/core/core.py`: fail with
`NoIndexLoadedError` when no index is loaded; default the response mode
to `QUERY_CONFIG.default_response_mode` when omitted; fail with
`UnsupportedResponseModeError` when a supplied mode is not in
`QUERY_CONFIG.supported_response_modes`; otherwise run one retrieval and
one generation through the delegated query engine. -/
def RAGPipeline.query (qe : QueryEnv) (st : PipelineState) (question : String)
    (response_mode : Option String) : QueryOutcome :=
  match st.pipeline.index with
  | none =>
      { result := .error .noIndexLoadedError,
        retrieval_calls := 0, generation_calls := 0 }
  | some idx =>
      match response_mode with
      | none =>
          { result := .ok (qe.answer idx question QUERY_CONFIG.default_response_mode),
            retrieval_calls := 1, generation_calls := 1 }
      | some m =>
          if m ∈ QUERY_CONFIG.supported_response_modes then
            { result := .ok (qe.answer idx question m),
              retrieval_calls := 1, generation_calls := 1 }
          else
            { result := .error (.unsupportedResponseModeError m),
              retrieval_calls := 0, generation_calls := 0 }

/-- `RAGPipeline.delete_index` of `rag_pipeline/core/core.py`: delete
the manager's collection (propagating its failure), then clear the
active index reference. -/
def RAGPipeline.delete_index (st : PipelineState) : Except PipelineError PipelineState :=
  match st.pipeline.chroma_manager.delete_collection st.store with
  | .error e => .error e
  | .ok s1 =>
      .ok { pipeline := { st.pipeline with index := none },
            store := s1, embed_calls := st.embed_calls }

/-- A one-chunk-per-document splitter, used as a concrete delegated
splitting capability in witness scenarios. -/
def splitOne : Doc → List StoredChunk := fun d => [{ text := d.text }]

/-- The empty persistent store. -/
def store0 : Store := { collections := [] }

/-- The store right after constructing a default pipeline on an empty
store: the default collection exists and is empty. -/
def store1 : Store := { collections := [("rag_collection_default", [])] }

/-- The manager built by `ChromaDBManager.init none "default"`. -/
def mgr0 : ChromaDBManager :=
  { provider := "openai", model_name := "gpt-4o",
    embedding_model := "text-embedding-3-large",
    model_config := "default", collection_name := "rag_collection_default" }

/-- The facade built by `RAGPipeline.init "data" none "default" "default"`. -/
def pipeline0 : RAGPipeline :=
  { data_dir := "data", file_types := [".pdf", ".docx", ".txt", ".md"],
    collection_name := none, provider := "openai", model_name := "gpt-4o",
    data_loader := { data_dir := "data", file_types := [".pdf", ".docx", ".txt", ".md"],
                     recursive := false, exclude_hidden := true },
    chroma_manager := mgr0, index := none }

/-- A filesystem whose `data` directory yields one text document. -/
def fs1 : FileSystem :=
  { dirs := ["data"],
    scan := fun _ _ _ _ => [{ text := "hello", source_path := "data/a.txt" }] }

/-- A filesystem whose `data` directory yields no documents. -/
def fsEmpty : FileSystem :=
  { dirs := ["data"], scan := fun _ _ _ _ => [] }

/-- A concrete delegated query engine. -/
def qe0 : QueryEnv := { answer := fun _ q m => q ++ " answered in mode " ++ m }

/-- Freshly constructed pipeline state (no index, empty collection). -/
def st0 : PipelineState := { pipeline := pipeline0, store := store1, embed_calls := 0 }

/-- The state after `load_documents` on `st0` over `fs1` with `splitOne`:
one chunk embedded and persisted, index loaded. -/
def st1c : PipelineState :=
  { pipeline := { pipeline0 with index := some { collection_name := "rag_collection_default" } },
    store := { collections := [("rag_collection_default", [{ text := "hello" }])] },
    embed_calls := 1 }

/-- Claim C8: for every name in the model-configuration registry,
`get_model_config` returns exactly the registered tuple, and for every
name in the file-type registry `get_file_types` returns exactly the
registered extension list; unregistered names fail with a
`ConfigurationError`.  Both functions are pure reads of the static
registries (the embedding has no mutation at all). -/
theorem resolve_registry_contract :
    (∀ name cfg, (name, cfg) ∈ MODEL_CONFIGS → get_model_config name = .ok cfg) ∧
    (∀ name, MODEL_CONFIGS.lookup name = none →
      get_model_config name
        = .error (.configurationError ("Unknown model configuration: " ++ name))) ∧
    (∀ name fts, (name, fts) ∈ FILE_TYPES → get_file_types name = .ok fts) ∧
    (∀ name, FILE_TYPES.lookup name = none →
      get_file_types name
        = .error (.configurationError ("Unknown file types configuration: " ++ name))) := by
  refine ⟨?_, ?_, ?_, ?_⟩
  · intro name cfg h
    simp only [ MODEL_CONFIGS, List.mem_cons, List.not_mem_nil, or_false, Prod.mk.injEq] at h
    rcases h with ⟨h1, h2⟩ | ⟨h1, h2⟩ | ⟨h1, h2⟩ | ⟨h1, h2⟩ | ⟨h1, h2⟩ <;>
      subst h1 <;> subst h2 <;> rfl
  · intro name h
    simp only [get_model_config, h]
  · intro name fts h
    simp only [FILE_TYPES, List.mem_cons, List.not_mem_nil, or_false, Prod.mk.injEq] at h
    rcases h with ⟨h1, h2⟩ | ⟨h1, h2⟩ | ⟨h1, h2⟩ <;> subst h1 <;> subst h2 <;> rfl
  · intro name h
    simp only [get_file_types, h]

/-- Witness for C8 at concrete inputs: the registered name `default`
resolves to its registered tuple in both registries, and the
unregistered name `bogus` fails with a `ConfigurationError` in both. -/
theorem resolve_registry_contract_witness :
    get_model_config "default"
      = .ok { provider := "openai", llm_model := "gpt-4o",
              embedding_model := "text-embedding-3-large",
              api_base := none, api_version := none } ∧
    get_model_config "bogus"
      = .error (.configurationError "Unknown model configuration: bogus") ∧
    get_file_types "default" = .ok [".pdf", ".docx", ".txt", ".md"] ∧
    get_file_types "bogus"
      = .error (.configurationError "Unknown file types configuration: bogus") :=
  ⟨resolve_registry_contract.1 "default" _ (by simp [ MODEL_CONFIGS]),
   resolve_registry_contract.2.1 "bogus" (by rfl),
   resolve_registry_contract.2.2.1 "default" _ (by simp [FILE_TYPES]),
   resolve_registry_contract.2.2.2 "bogus" (by rfl)⟩

/-- Claim C9: with no explicit collection name, the manager resolves the
collection name to exactly `{collection_prefix}_{model_config}` (with
the configured `rag_collection` and `default` this is
`rag_collection_default`); an explicitly supplied name is used
unchanged. -/
theorem collection_naming_resolution (mc n : String) (s : Store) :
    (∀ m s1, ChromaDBManager.init none mc s = .ok (m, s1) →
      m.collection_name = CHROMA_CONFIG.collection_pre ++ "_" ++ mc) ∧
    (∀ m s1, ChromaDBManager.init (some n) mc s = .ok (m, s1) →
      m.collection_name = n) ∧
    CHROMA_CONFIG.collection_pre = "rag_collection" ∧
    (∀ m s1, ChromaDBManager.init none "default" s = .ok (m, s1) →
      m.collection_name = "rag_collection_default") := by
  refine ⟨?_, ?_, rfl, ?_⟩
  · intro m s1 h
    cases hg : get_model_config mc with
    | error e => simp [ChromaDBManager.init, hg] at h
    | ok settings =>
        simp only [ChromaDBManager.init, hg, Except.ok.injEq, Prod.mk.injEq] at h
        rw [← h.1]
  · intro m s1 h
    cases hg : get_model_config mc with
    | error e => simp [ChromaDBManager.init, hg] at h
    | ok settings =>
        simp only [ChromaDBManager.init, hg, Except.ok.injEq, Prod.mk.injEq] at h
        rw [← h.1]
  · intro m s1 h
    cases hg : get_model_config "default" with
    | error e => simp [ChromaDBManager.init, hg] at h
    | ok settings =>
        simp only [ChromaDBManager.init, hg, Except.ok.injEq, Prod.mk.injEq] at h
        rw [← h.1]
        rfl

/-- Witness for C9 at concrete inputs: on an empty store, the default
configuration resolves to `rag_collection_default`, and an explicit
name `my_coll` is kept unchanged. -/
theorem collection_naming_resolution_witness :
    mgr0.collection_name = "rag_collection_default" ∧
    ChromaDBManager.collection_name
        { provider := "openai", model_name := "gpt-4o",
          embedding_model := "text-embedding-3-large",
          model_config := "default", collection_name := "my_coll" }
      = "my_coll" :=
  ⟨(collection_naming_resolution "default" "my_coll" store0).2.2.2 mgr0 store1 rfl,
   (collection_naming_resolution "default" "my_coll" store0).2.1
     { provider := "openai", model_name := "gpt-4o",
       embedding_model := "text-embedding-3-large",
       model_config := "default", collection_name := "my_coll" }
     { collections := [("my_coll", [])] } rfl⟩

/-- Claim C2 (spec-modelled operation): `get_document_count` is total
(it always returns a natural number, never an error) and returns 0 when
the named collection is absent from the store; when the collection is
present it returns the number of stored items. -/
theorem get_document_count_contract (m : ChromaDBManager) (s : Store) :
    (lookupColl s.collections m.collection_name = none →
      m.get_document_count s = 0) ∧
    (∀ items, lookupColl s.collections m.collection_name = some items →
      m.get_document_count s = items.length) := by
  constructor
  · intro h
    simp [ChromaDBManager.get_document_count, h]
  · intro items h
    simp [ChromaDBManager.get_document_count, h]

/-- Witness for C2 at concrete inputs: on the empty store (where
`rag_collection_default` is absent) the count is 0; on a store holding
one chunk, the count is 1. -/
theorem get_document_count_contract_witness :
    mgr0.get_document_count store0 = 0 ∧
    mgr0.get_document_count
        { collections := [("rag_collection_default", [{ text := "hello" }])] } = 1 :=
  ⟨(get_document_count_contract mgr0 store0).1 rfl,
   (get_document_count_contract mgr0
       { collections := [("rag_collection_default", [{ text := "hello" }])] }).2
     [{ text := "hello" }] rfl⟩

/-- Claim C6: `get_existing_index` returns `none` exactly when the
collection is absent from the store or present with zero stored items
(the two causes yield the same result, so the caller cannot distinguish
them); otherwise it returns the index reconstructed over that
collection. -/
theorem get_existing_index_absent_iff (m : ChromaDBManager) (s : Store) :
    (m.get_existing_index s = none ↔
      lookupColl s.collections m.collection_name = none ∨
      lookupColl s.collections m.collection_name = some []) ∧
    (∀ items, lookupColl s.collections m.collection_name = some items → items ≠ [] →
      m.get_existing_index s = some { collection_name := m.collection_name }) := by
  constructor
  · cases h : lookupColl s.collections m.collection_name with
    | none => simp [ChromaDBManager.get_existing_index, h]
    | some items =>
        cases items with
        | nil => simp [ChromaDBManager.get_existing_index, h]
        | cons a rest => simp [ChromaDBManager.get_existing_index, h]
  · intro items h hne
    simp [ChromaDBManager.get_existing_index, h, List.length_eq_zero.not.mpr
      (by simpa using hne)]

/-- Witness for C6 at concrete inputs: `none` both on the empty store
and on a store where the collection exists empty; `some` on a store with
one stored chunk. -/
theorem get_existing_index_absent_iff_witness :
    mgr0.get_existing_index store0 = none ∧
    mgr0.get_existing_index store1 = none ∧
    mgr0.get_existing_index
        { collections := [("rag_collection_default", [{ text := "hello" }])] }
      = some { collection_name := "rag_collection_default" } :=
  ⟨(get_existing_index_absent_iff mgr0 store0).1.mpr (Or.inl rfl),
   (get_existing_index_absent_iff mgr0 store1).1.mpr (Or.inr rfl),
   (get_existing_index_absent_iff mgr0
       { collections := [("rag_collection_default", [{ text := "hello" }])] }).2
     [{ text := "hello" }] rfl (by simp)⟩

/-- Claim C7: the Document Loader fails with `DirectoryNotFoundError`
exactly when the data directory does not exist; when the directory
exists it never fails, and when the delegated reader finds no matching
documents it emits the warning and returns the empty sequence to the
caller. -/
theorem data_loader_contract (fs : FileSystem) (dl : DataLoader) (o : Option (List String)) :
    (DataLoader.load_documents fs dl o = .error (.directoryNotFoundError dl.data_dir)
      ↔ dl.data_dir ∉ fs.dirs) ∧
    (dl.data_dir ∈ fs.dirs →
      DataLoader.load_documents fs dl o
        = .ok { docs := fs.scan dl.data_dir (o.getD dl.file_types) dl.recursive
                          dl.exclude_hidden,
                warned := (fs.scan dl.data_dir (o.getD dl.file_types) dl.recursive
                          dl.exclude_hidden).isEmpty }) ∧
    (dl.data_dir ∈ fs.dirs →
      fs.scan dl.data_dir (o.getD dl.file_types) dl.recursive dl.exclude_hidden = [] →
      DataLoader.load_documents fs dl o = .ok { docs := [], warned := true }) := by
  by_cases hd : dl.data_dir ∈ fs.dirs
  · refine ⟨?_, ?_, ?_⟩
    · constructor
      · intro h
        simp [DataLoader.load_documents, hd] at h
      · intro h
        exact absurd hd h
    · intro _
      simp [DataLoader.load_documents, hd]
    · intro _ hscan
      simp [DataLoader.load_documents, hd, hscan]
  · refine ⟨?_, ?_, ?_⟩
    · constructor
      · intro _
        exact hd
      · intro _
        simp [DataLoader.load_documents, hd]
    · intro h
      exact absurd h hd
    · intro h
      exact absurd h hd

/-- Witness for C7 at concrete inputs: the loader over a filesystem
without a `missing` directory fails with `DirectoryNotFoundError`, and
over an existing but empty `data` directory returns the empty sequence
with the warning, without failing. -/
theorem data_loader_contract_witness :
    DataLoader.load_documents fsEmpty
        { data_dir := "missing", file_types := [".txt"], recursive := false,
          exclude_hidden := true } none
      = .error (.directoryNotFoundError "missing") ∧
    DataLoader.load_documents fsEmpty
        { data_dir := "data", file_types := [".txt"], recursive := false,
          exclude_hidden := true } none
      = .ok { docs := [], warned := true } :=
  ⟨(data_loader_contract fsEmpty
      { data_dir := "missing", file_types := [".txt"], recursive := false,
        exclude_hidden := true } none).1.mpr (by simp [fsEmpty]),
   (data_loader_contract fsEmpty
      { data_dir := "data", file_types := [".txt"], recursive := false,
        exclude_hidden := true } none).2.2 (by simp [fsEmpty]) rfl⟩

/-- Claim C4: with an index loaded, a supplied response mode outside
`QUERY_CONFIG.supported_response_modes` makes `query` fail with
`UnsupportedResponseModeError` with zero retrieval and zero generation
invocations; an omitted response mode runs the delegated engine with the
configured default mode, which is `compact`. -/
theorem query_mode_validation (qe : QueryEnv) (st : PipelineState) (q m : String)
    (idx : Index) (hidx : st.pipeline.index = some idx)
    (hm : m ∉ QUERY_CONFIG.supported_response_modes) :
    RAGPipeline.query qe st q (some m)
      = { result := .error (.unsupportedResponseModeError m),
          retrieval_calls := 0, generation_calls := 0 } ∧
    RAGPipeline.query qe st q none
      = { result := .ok (qe.answer idx q QUERY_CONFIG.default_response_mode),
          retrieval_calls := 1, generation_calls := 1 } ∧
    QUERY_CONFIG.default_response_mode = "compact" := by
  refine ⟨?_, ?_, rfl⟩
  · simp [RAGPipeline.query, hidx, hm]
  · simp [RAGPipeline.query, hidx]

/-- Witness for C4 at concrete inputs: on a loaded pipeline state, mode
`bogus` is rejected before any retrieval or generation, and an omitted
mode answers with the default mode `compact`. -/
theorem query_mode_validation_witness :
    RAGPipeline.query qe0 st1c "What is stored?" (some "bogus")
      = { result := .error (.unsupportedResponseModeError "bogus"),
          retrieval_calls := 0, generation_calls := 0 } ∧
    RAGPipeline.query qe0 st1c "What is stored?" none
      = { result := .ok "What is stored? answered in mode compact",
          retrieval_calls := 1, generation_calls := 1 } := by
  have h := query_mode_validation qe0 st1c "What is stored?" "bogus"
    { collection_name := "rag_collection_default" } rfl (by decide)
  exact ⟨h.1, h.2.1⟩

/-- Claim C3: `query` on a pipeline state with no loaded index — which
is the state both before any `load_documents` call and after a
`load_documents` call that found no documents — fails with
`NoIndexLoadedError` and performs zero retrieval and zero generation
invocations, for every question and response mode. -/
theorem query_without_index_fails (qe : QueryEnv) (fs : FileSystem)
    (split : Doc → List StoredChunk) (st : PipelineState) (q : String)
    (mode : Option String) (o : Option (List String))
    (h : st.pipeline.index = none) :
    RAGPipeline.query qe st q mode
      = { result := .error .noIndexLoadedError,
          retrieval_calls := 0, generation_calls := 0 } ∧
    (∀ st1, st.pipeline.chroma_manager.get_document_count st.store = 0 →
      fs.scan st.pipeline.data_loader.data_dir (o.getD st.pipeline.data_loader.file_types)
          st.pipeline.data_loader.recursive st.pipeline.data_loader.exclude_hidden = [] →
      RAGPipeline.load_documents fs split st o = .ok st1 →
      RAGPipeline.query qe st1 q mode
        = { result := .error .noIndexLoadedError,
            retrieval_calls := 0, generation_calls := 0 }) := by
  constructor
  · simp [RAGPipeline.query, h]
  · intro st1 hcount hscan hload
    have hnotpos : ¬ 0 < st.pipeline.chroma_manager.get_document_count st.store := by
      rw [hcount]
      exact Nat.lt_irrefl 0
    by_cases hd : st.pipeline.data_loader.data_dir ∈ fs.dirs
    · have hLoader := (data_loader_contract fs st.pipeline.data_loader o).2.2 hd hscan
      rw [RAGPipeline.load_documents, if_neg hnotpos, hLoader] at hload
      simp only [List.isEmpty_nil, if_true, Except.ok.injEq] at hload
      rw [← hload]
      simp [RAGPipeline.query, h]
    · have hLoader := (data_loader_contract fs st.pipeline.data_loader o).1.mpr hd
      rw [RAGPipeline.load_documents, if_neg hnotpos, hLoader] at hload
      exact absurd hload (by simp)

/-- Witness for C3 at concrete inputs: on the freshly constructed state
the query fails with `NoIndexLoadedError` and zero retrieval or
generation, both directly and after a `load_documents` that found no
documents. -/
theorem query_without_index_fails_witness :
    RAGPipeline.query qe0 st0 "anything" none
      = { result := .error .noIndexLoadedError,
          retrieval_calls := 0, generation_calls := 0 } ∧
    RAGPipeline.load_documents fsEmpty splitOne st0 none = .ok st0 ∧
    RAGPipeline.query qe0 st0 "anything" (some "compact")
      = { result := .error .noIndexLoadedError,
          retrieval_calls := 0, generation_calls := 0 } := by
  have h1 := query_without_index_fails qe0 fsEmpty splitOne st0 "anything" none none rfl
  have h2 := query_without_index_fails qe0 fsEmpty splitOne st0 "anything"
    (some "compact") none rfl
  exact ⟨h1.1, rfl, h2.2 st0 rfl rfl rfl⟩

theorem get_document_count_upsert_self (m : ChromaDBManager) (s : Store)
    (chunks : List StoredChunk) :
    m.get_document_count (s.upsert m.collection_name chunks)
      = m.get_document_count s + chunks.length := by
  cases h : lookupColl s.collections m.collection_name with
  | none => simp [ChromaDBManager.get_document_count, lookupColl_upsert_self, h]
  | some items => simp [ChromaDBManager.get_document_count, lookupColl_upsert_self, h]

theorem load_documents_pos_eq (fs : FileSystem) (split : Doc → List StoredChunk)
    (st : PipelineState) (o : Option (List String))
    (hc : 0 < st.pipeline.chroma_manager.get_document_count st.store) :
    RAGPipeline.load_documents fs split st o
      = .ok { st with pipeline := { st.pipeline with
          index := st.pipeline.chroma_manager.get_existing_index st.store } } := by
  rw [RAGPipeline.load_documents, if_pos hc]

/-- Claim C5 (spec-modelled operation `delete_collection`): when the
facade's `delete_index` succeeds it has removed every persisted chunk of
the manager's collection from the store (a subsequent count is 0) and
cleared the active index reference; and on every state whose collection
is absent, `delete_index` fails with `CollectionNotFoundError`. -/
theorem delete_collection_contract (st st1 : PipelineState)
    (h : RAGPipeline.delete_index st = .ok st1) :
    st1.pipeline.index = none ∧
    st1.store.collections
      = removeColl st.store.collections st.pipeline.chroma_manager.collection_name ∧
    lookupColl st1.store.collections st.pipeline.chroma_manager.collection_name = none ∧
    st.pipeline.chroma_manager.get_document_count st1.store = 0 ∧
    (∀ s2 : PipelineState,
      lookupColl s2.store.collections s2.pipeline.chroma_manager.collection_name = none →
      RAGPipeline.delete_index s2
        = .error (.collectionNotFoundError s2.pipeline.chroma_manager.collection_name)) := by
  cases hl : lookupColl st.store.collections st.pipeline.chroma_manager.collection_name with
  | none =>
      rw [RAGPipeline.delete_index] at h
      rw [show st.pipeline.chroma_manager.delete_collection st.store
            = .error (.collectionNotFoundError st.pipeline.chroma_manager.collection_name)
          from by simp [ChromaDBManager.delete_collection, hl]] at h
      exact absurd h (by simp)
  | some items =>
      rw [RAGPipeline.delete_index] at h
      rw [show st.pipeline.chroma_manager.delete_collection st.store
            = .ok { collections :=
                removeColl st.store.collections st.pipeline.chroma_manager.collection_name }
          from by simp [ChromaDBManager.delete_collection, hl]] at h
      simp only [Except.ok.injEq] at h
      subst h
      refine ⟨rfl, rfl, lookupColl_removeColl_self _ _, ?_, ?_⟩
      · simp [ChromaDBManager.get_document_count, lookupColl_removeColl_self]
      · intro s2 hl2
        rw [RAGPipeline.delete_index]
        rw [show s2.pipeline.chroma_manager.delete_collection s2.store
              = .error (.collectionNotFoundError s2.pipeline.chroma_manager.collection_name)
            from by simp [ChromaDBManager.delete_collection, hl2]]

/-- Witness for C5 at concrete inputs: deleting on the freshly
constructed state (whose collection exists) succeeds, empties the
collection and clears the index; deleting again on the resulting state
fails with `CollectionNotFoundError`. -/
theorem delete_collection_contract_witness :
    RAGPipeline.delete_index st0
      = .ok { pipeline := pipeline0, store := store0, embed_calls := 0 } ∧
    mgr0.get_document_count store0 = 0 ∧
    RAGPipeline.delete_index { pipeline := pipeline0, store := store0, embed_calls := 0 }
      = .error (.collectionNotFoundError "rag_collection_default") := by
  have h := delete_collection_contract st0
    { pipeline := pipeline0, store := store0, embed_calls := 0 } rfl
  exact ⟨rfl, h.2.2.2.1, h.2.2.2.2
    { pipeline := pipeline0, store := store0, embed_calls := 0 } rfl⟩

/-- Counterexample to C10 as stated: the manager's collection does NOT
exist in the store "from construction onward" unconditionally — the
system's own `delete_collection` (reached via the facade's
`delete_index`) removes it.  Concretely: construct the default manager
over the empty store (the collection is created), then delete; the
collection is absent and `get_existing_index` takes its
collection-does-not-exist branch, returning `none`. -/
theorem manager_collection_not_persistent_counterexample :
    ChromaDBManager.init none "default" store0 = .ok (mgr0, store1) ∧
    (lookupColl store1.collections mgr0.collection_name).isSome = true ∧
    mgr0.delete_collection store1 = .ok store0 ∧
    lookupColl store0.collections mgr0.collection_name = none ∧
    mgr0.get_existing_index store0 = none :=
  ⟨rfl, rfl, rfl, rfl, rfl⟩

/-- Claim C10 amended: constructing a Collection Store Manager
get-or-creates its named collection, so the collection exists in the
store immediately after construction and keeps existing across the
store-writing operations other than deletion (`upsert`,
`get_or_create`); and whenever the stored document count is positive —
the guard under which `load_documents` calls `get_existing_index` — the
collection exists and `get_existing_index` returns an index, so its
collection-does-not-exist branch is unreachable through that guarded
call.  (Unamended the claim is false: an explicit `delete_collection`
removes the collection, see the counterexample.) -/
theorem manager_collection_exists_after_init (cn : Option String) (mc : String)
    (s : Store) (m : ChromaDBManager) (s1 : Store)
    (h : ChromaDBManager.init cn mc s = .ok (m, s1)) :
    (lookupColl s1.collections m.collection_name).isSome = true ∧
    (∀ st : Store, ∀ name : String, ∀ chunks : List StoredChunk,
      (lookupColl st.collections m.collection_name).isSome = true →
      (lookupColl (st.upsert name chunks).collections m.collection_name).isSome = true) ∧
    (∀ st : Store, ∀ name : String,
      (lookupColl st.collections m.collection_name).isSome = true →
      (lookupColl (st.get_or_create name).collections m.collection_name).isSome = true) ∧
    (∀ st : Store, 1 ≤ m.get_document_count st →
      (lookupColl st.collections m.collection_name).isSome = true ∧
      m.get_existing_index st = some { collection_name := m.collection_name }) := by
  refine ⟨?_, ?_, ?_, ?_⟩
  · cases hg : get_model_config mc with
    | error e => simp [ChromaDBManager.init, hg] at h
    | ok settings =>
        simp only [ChromaDBManager.init, hg, Except.ok.injEq, Prod.mk.injEq] at h
        rw [← h.1, ← h.2]
        cases cn with
        | none => exact lookupColl_get_or_create_self s _
        | some n => exact lookupColl_get_or_create_self s _
  · intro st name chunks hsome
    by_cases hn : name = m.collection_name
    · subst hn
      rw [lookupColl_upsert_self]
      rfl
    · show (lookupColl ((name, _) :: removeColl st.collections name)
        m.collection_name).isSome = true
      rw [lookupColl, if_neg hn,
        lookupColl_removeColl_ne st.collections name m.collection_name (Ne.symm hn)]
      exact hsome
  · intro st name hsome
    unfold Store.get_or_create
    cases hl : lookupColl st.collections name with
    | some v => exact hsome
    | none =>
        by_cases hn : name = m.collection_name
        · subst hn
          simp [lookupColl]
        · show (lookupColl ((name, []) :: st.collections) m.collection_name).isSome = true
          rw [lookupColl, if_neg hn]
          exact hsome
  · intro st hcount
    cases hl : lookupColl st.collections m.collection_name with
    | none =>
        rw [show m.get_document_count st = 0
            from by simp [ChromaDBManager.get_document_count, hl]] at hcount
        exact absurd hcount (by omega)
    | some items =>
        have hlen : 1 ≤ items.length := by
          rw [show m.get_document_count st = items.length
              from by simp [ChromaDBManager.get_document_count, hl]] at hcount
          exact hcount
        constructor
        · simp [hl]
        · have hne : items.length ≠ 0 := by omega
          simp [ChromaDBManager.get_existing_index, hl, hne]

/-- Witness for the amended C10 at concrete inputs: after the default
construction over the empty store the collection exists; with one
stored chunk the count is positive and `get_existing_index` returns
the index. -/
theorem manager_collection_exists_after_init_witness :
    (lookupColl store1.collections mgr0.collection_name).isSome = true ∧
    mgr0.get_existing_index
        { collections := [("rag_collection_default", [{ text := "hello" }])] }
      = some { collection_name := "rag_collection_default" } := by
  have h := manager_collection_exists_after_init none "default" store0 mgr0 store1 rfl
  exact ⟨h.1, (h.2.2.2
    { collections := [("rag_collection_default", [{ text := "hello" }])] }
    (by decide)).2⟩

theorem load_documents_zero_eq (fs : FileSystem) (split : Doc → List StoredChunk)
    (st : PipelineState) (o : Option (List String)) (r : LoadResult)
    (hc : ¬ 0 < st.pipeline.chroma_manager.get_document_count st.store)
    (hl : DataLoader.load_documents fs st.pipeline.data_loader o = .ok r) :
    RAGPipeline.load_documents fs split st o
      = match r.docs with
        | [] => .ok st
        | d :: ds =>
            let c := st.pipeline.chroma_manager.create_index split (d :: ds) st.store
            .ok { pipeline := { st.pipeline with index := some c.index },
                  store := c.store,
                  embed_calls := st.embed_calls + c.embeds } := by
  rw [RAGPipeline.load_documents, if_neg hc, hl]

/-- Claim C1: when the collection already holds at least one stored
item, `load_documents` loads the existing index, leaving the store and
the embedding-call count untouched; and after any successful
`load_documents`, calling it again succeeds with the same stored
document count and zero additional embedding-capability invocations. -/
theorem load_documents_idempotent (fs : FileSystem) (split : Doc → List StoredChunk)
    (st st1 : PipelineState) (o : Option (List String))
    (h : RAGPipeline.load_documents fs split st o = .ok st1) :
    (1 ≤ st.pipeline.chroma_manager.get_document_count st.store →
      st1.store = st.store ∧ st1.embed_calls = st.embed_calls ∧
      st1.pipeline.index = st.pipeline.chroma_manager.get_existing_index st.store) ∧
    (∃ st2, RAGPipeline.load_documents fs split st1 o = .ok st2 ∧
      st2.pipeline.chroma_manager.get_document_count st2.store
        = st1.pipeline.chroma_manager.get_document_count st1.store ∧
      st2.embed_calls = st1.embed_calls) := by
  by_cases hc : 0 < st.pipeline.chroma_manager.get_document_count st.store
  · rw [load_documents_pos_eq fs split st o hc] at h
    simp only [Except.ok.injEq] at h
    subst h
    refine ⟨fun _ => ⟨rfl, rfl, rfl⟩, ?_⟩
    exact ⟨_, load_documents_pos_eq fs split
      { st with pipeline := { st.pipeline with
          index := st.pipeline.chroma_manager.get_existing_index st.store } } o hc,
      rfl, rfl⟩
  · have hc0 : st.pipeline.chroma_manager.get_document_count st.store = 0 := by omega
    cases hl : DataLoader.load_documents fs st.pipeline.data_loader o with
    | error e =>
        rw [RAGPipeline.load_documents, if_neg hc, hl] at h
        exact absurd h (by simp)
    | ok r =>
        rw [load_documents_zero_eq fs split st o r hc hl] at h
        cases hdocs : r.docs with
        | nil =>
            rw [hdocs] at h
            simp only [Except.ok.injEq] at h
            subst h
            refine ⟨?_, ?_⟩
            · intro h1
              rw [hc0] at h1
              exact absurd h1 (by omega)
            · refine ⟨st, ?_, rfl, rfl⟩
              rw [load_documents_zero_eq fs split st o r hc hl, hdocs]
        | cons d ds =>
            rw [hdocs] at h
            simp only [ChromaDBManager.create_index, Except.ok.injEq] at h
            subst h
            refine ⟨?_, ?_⟩
            · intro h1
              rw [hc0] at h1
              exact absurd h1 (by omega)
            · cases hch : (d :: ds).flatMap split with
              | nil =>
                  -- no chunks were produced: the collection count stays 0 and
                  -- the second call re-runs the build with zero embeddings
                  have hc2 : ¬ 0 < st.pipeline.chroma_manager.get_document_count
                      (st.store.upsert st.pipeline.chroma_manager.collection_name []) := by
                    rw [get_document_count_upsert_self, hc0]
                    simp
                  have hsecond := load_documents_zero_eq fs split
                    { pipeline := { st.pipeline with
                        index := some ⟨st.pipeline.chroma_manager.collection_name⟩ },
                      store := st.store.upsert st.pipeline.chroma_manager.collection_name [],
                      embed_calls := st.embed_calls + List.length ([] : List StoredChunk) }
                    o r hc2 hl
                  rw [hdocs] at hsecond
                  simp only [ChromaDBManager.create_index] at hsecond
                  refine ⟨_, hsecond, ?_, ?_⟩
                  · simp [get_document_count_upsert_self, hch]
                  · simp [hch]
              | cons ch chs =>
                  -- at least one chunk was persisted: the second call takes the
                  -- load-existing branch and embeds nothing
                  have hc2 : 0 < st.pipeline.chroma_manager.get_document_count
                      (st.store.upsert st.pipeline.chroma_manager.collection_name
                        (ch :: chs)) := by
                    rw [get_document_count_upsert_self]
                    simp only [List.length_cons]
                    omega
                  exact ⟨_, load_documents_pos_eq fs split
                    { pipeline := { st.pipeline with
                        index := some ⟨st.pipeline.chroma_manager.collection_name⟩ },
                      store := st.store.upsert st.pipeline.chroma_manager.collection_name
                        (ch :: chs),
                      embed_calls := st.embed_calls + (ch :: chs).length } o hc2,
                    rfl, rfl⟩

/-- Witness for C1 at concrete inputs: on the state whose collection
already holds one chunk, `load_documents` returns the same state (it
loads the existing index), the store and embedding-call count are
untouched, and a repeated call again succeeds with the same document
count and no additional embedding calls. -/
theorem load_documents_idempotent_witness :
    RAGPipeline.load_documents fs1 splitOne st1c none = .ok st1c ∧
    (st1c.store = st1c.store ∧ st1c.embed_calls = st1c.embed_calls ∧
      st1c.pipeline.index = mgr0.get_existing_index st1c.store) ∧
    (∃ st2, RAGPipeline.load_documents fs1 splitOne st1c none = .ok st2 ∧
      st2.pipeline.chroma_manager.get_document_count st2.store
        = st1c.pipeline.chroma_manager.get_document_count st1c.store ∧
      st2.embed_calls = st1c.embed_calls) := by
  have h := load_documents_idempotent fs1 splitOne st1c st1c none rfl
  exact ⟨rfl, h.1 (by decide), h.2⟩
